import Mathlib

/-!
Shallow embedding of `.github/scripts/project_automation.py`.

The script is an orchestration layer over remote GitHub API calls made
through the `gh` command-line client.  We model the remote system as an
explicit `World` value: the set of issues, organization projects, project
items (memberships) and iteration fields, together with a list of remote
calls that are designated to fail (raising `GitHubAPIError` in the
script, modelled as the `RCall.err` result).  Every operation of the
`GitHubProjectAutomation` class becomes a pure function over `World`.
Mutating operations return the updated `World` and a trace of the
mutation calls they attempted (`addItem`, `setIter`, `clearIter`); the
best-effort operations also return the warning diagnostics they print.
-/

/-- Result of a remote call: `ok` carries the value, `err` models a raised
`GitHubAPIError` (the message content is abstracted away). -/
inductive RCall (α : Type) where
  | ok (val : α)
  | err
deriving DecidableEq

/-- An issue as seen through the REST read used by the script: repository,
number, node id, and label names in order. -/
structure Issue where
  repo : String
  number : Nat
  nodeId : String
  labels : List String
deriving DecidableEq

/-- A ProjectV2 node of an organization: id, number and title. -/
structure Project where
  org : String
  id : String
  number : Nat
  title : String
deriving DecidableEq

/-- A project item: membership of a content node (issue) in a project. -/
structure Item where
  projectId : String
  itemId : String
  contentId : String
deriving DecidableEq

/-- One entry of an iteration field configuration.  The `id` key of the
returned JSON object is modelled as an `Option` so that a malformed
response with the key missing (a `KeyError` in the script) is expressible. -/
structure IterEntry where
  id : Option String
  title : String
  startDate : String
deriving DecidableEq

/-- A ProjectV2IterationField as returned by the GraphQL read: the `id`
key (optional, to model a malformed dictionary), the field name, and the
`configuration.iterations` and `configuration.completedIterations` lists
(the script reads the former through a `.get` chain defaulting to `[]`). -/
structure IterField where
  id : Option String
  name : String
  iterations : List IterEntry
  completedIterations : List IterEntry
deriving DecidableEq

/-- The remote calls the script performs.  Queries and mutations are both
listed; a call that is a member of `World.failing` raises. -/
inductive ApiCall where
  | getIssue (repo : String) (num : Nat)
  | getLabels (repo : String) (num : Nat) (pre : String)
  | listProjects (org : String)
  | listItems (projectId : String)
  | getFields (projectId : String)
  | addItem (projectId : String) (contentId : String)
  | setIter (projectId : String) (itemId : String) (fieldId : String) (iterId : String)
  | clearIter (projectId : String) (itemId : String) (fieldId : String)
deriving DecidableEq

/-- The remote state: issues, projects, memberships, iteration fields per
project id, the set of calls that fail, and a counter used to mint fresh
item ids for `addProjectV2ItemById`. -/
structure World where
  issues : List Issue
  projects : List Project
  items : List Item
  fields : List (String × List IterField)
  failing : List ApiCall
  ctr : Nat
deriving DecidableEq

/-- Model of the newline join the `gh --jq` pipeline applies to multiple
matching rows (the stdout the script reads back). -/
def joinNL : List String → String
  | [] => ""
  | [a] => a
  | a :: b :: t => a ++ "\n" ++ joinNL (b :: t)

/-- Model of the python `str.startswith` used by the jq label filter. -/
def strStartsWith (s : String) (pre : String) : Bool :=
  pre.data.isPrefixOf s.data

/-- `get_issue_id`: REST read of the issue node id. -/
def get_issue_id (w : World) (repository : String) (issue_number : Nat) : RCall String :=
  if (ApiCall.getIssue repository issue_number) ∈ w.failing then .err
  else
    match w.issues.find? (fun i => i.repo == repository && i.number == issue_number) with
    | some i => .ok i.nodeId
    | none => .err

/-- `get_labels_by_prefix`: label names of the issue that start with the
given string, in order (the jq `select(startswith(...))` filter; the
script then drops empty lines of the output). -/
def get_labels_by_pref (w : World) (repository : String) (issue_number : Nat)
    (pre : String) : RCall (List String) :=
  if (ApiCall.getLabels repository issue_number pre) ∈ w.failing then .err
  else
    match w.issues.find? (fun i => i.repo == repository && i.number == issue_number) with
    | some i => .ok (i.labels.filter (fun l => strStartsWith l pre && l != ""))
    | none => .err

/-- Projects of an organization, in the order the remote listing returns
them. -/
def projectsOf (w : World) (org : String) : List Project :=
  w.projects.filter (fun p => p.org == org)

/-- `get_project_by_title`: the GraphQL read lists the first 100 projects
and the jq filter keeps those whose title equals `title` exactly.  Empty
output is `None`; a single object parses; two or more concatenated JSON
objects make `json.loads` raise, which the script converts to an error. -/
def get_project_by_title (w : World) (org : String) (title : String) :
    RCall (Option Project) :=
  if (ApiCall.listProjects org) ∈ w.failing then .err
  else
    match ((projectsOf w org).take 100).filter (fun p => p.title == title) with
    | [] => .ok none
    | [p] => .ok (some p)
    | _ => .err

/-- Items of one project, in listing order. -/
def itemsOf (w : World) (pid : String) : List Item :=
  w.items.filter (fun it => it.projectId == pid)

/-- `is_issue_in_project`: lists the first 100 items of the project, keeps
the ids of those whose content id is the issue, and reads back the
newline-joined stdout; the script returns the string when non-empty and
`None` otherwise. -/
def is_issue_in_project (w : World) (project_id : String) (issue_id : String) :
    RCall (Option String) :=
  if (ApiCall.listItems project_id) ∈ w.failing then .err
  else
    let ids := (((itemsOf w project_id).take 100).filter
      (fun it => it.contentId == issue_id)).map (fun it => it.itemId)
    let s := joinNL ids
    .ok (if s == "" then none else some s)

/-- `add_issue_to_project`: the `addProjectV2ItemById` mutation.  A fresh
item id is minted and the membership appended to the project items. -/
def add_issue_to_project (w : World) (project_id : String) (issue_id : String) :
    RCall String × World × List ApiCall :=
  let c := ApiCall.addItem project_id issue_id
  if c ∈ w.failing then (.err, w, [c])
  else
    let newId := "PVTI_" ++ toString w.ctr
    (.ok newId,
      { w with items := w.items ++ [⟨project_id, newId, issue_id⟩], ctr := w.ctr + 1 },
      [c])

/-- `ensure_issue_in_project`: return the existing item id when the
membership check finds one (a non-empty string), otherwise add. -/
def ensure_issue_in_project (w : World) (project_id : String) (issue_id : String) :
    RCall String × World × List ApiCall :=
  match is_issue_in_project w project_id issue_id with
  | .err => (.err, w, [])
  | .ok (some itemId) => (.ok itemId, w, [])
  | .ok none => add_issue_to_project w project_id issue_id

/-- Fields of one project, in listing order. -/
def fieldsOf (w : World) (pid : String) : List IterField :=
  match w.fields.find? (fun pr => pr.1 == pid) with
  | some pr => pr.2
  | none => []

/-- `get_iteration_field`: reads the first 20 fields of the project and
keeps those named exactly Iteration or Sprint.  Empty output is `None`;
one object parses; two or more make `json.loads` raise. -/
def get_iteration_field (w : World) (project_id : String) : RCall (Option IterField) :=
  if (ApiCall.getFields project_id) ∈ w.failing then .err
  else
    match ((fieldsOf w project_id).take 20).filter
        (fun f => f.name == "Iteration" || f.name == "Sprint") with
    | [] => .ok none
    | [f] => .ok (some f)
    | _ => .err

/-- `set_iteration_to_current`: best-effort.  Returns success flag, the
mutation calls attempted, and the diagnostics printed.  Mirrors the
script: field lookup, the `id` key read (a missing key raises `KeyError`,
caught by the handler), the emptiness check on `iterations`, the `id` key
of the first entry, then the update mutation; `GitHubAPIError` and
`KeyError` are caught and turned into `False` with a diagnostic. -/
def set_iteration_to_current (w : World) (project_id : String) (item_id : String) :
    Bool × List ApiCall × List String :=
  match get_iteration_field w project_id with
  | .err => (false, [], ["Failed to set iteration: api error"])
  | .ok none => (false, [], ["No Iteration field found"])
  | .ok (some fd) =>
    match fd.id with
    | none => (false, [], ["Failed to set iteration: key error id"])
    | some field_id =>
      match fd.iterations with
      | [] => (false, [], ["No current iteration found"])
      | entry :: _ =>
        match entry.id with
        | none => (false, [], ["Failed to set iteration: key error id"])
        | some iter_id =>
          let c := ApiCall.setIter project_id item_id field_id iter_id
          if c ∈ w.failing then (false, [c], ["Failed to set iteration: api error"])
          else (true, [c], [])

/-- `clear_iteration`: best-effort clearing of the field value; same
error discipline as `set_iteration_to_current`. -/
def clear_iteration (w : World) (project_id : String) (item_id : String) :
    Bool × List ApiCall × List String :=
  match get_iteration_field w project_id with
  | .err => (false, [], ["Failed to clear iteration: api error"])
  | .ok none => (false, [], ["No Sprint/Iteration field found"])
  | .ok (some fd) =>
    match fd.id with
    | none => (false, [], ["Failed to clear iteration: key error id"])
    | some field_id =>
      let c := ApiCall.clearIter project_id item_id field_id
      if c ∈ w.failing then (false, [c], ["Failed to clear iteration: api error"])
      else (true, [c], [])

/-- The per-label loop of `process_sprint_for_build_labels`: processes the
remaining build labels, threading the world, the success count, the
mutation trace and the warning diagnostics.  An uncaught `GitHubAPIError`
(from the project lookup, the membership check or the add mutation)
escapes the loop: the outer handler prints and calls `sys.exit(1)`,
modelled as `RCall.err`. -/
def syncGo (issue_id : String) (org : String) (action : String) :
    List String → World → Nat → List ApiCall → List String →
    RCall Nat × World × List ApiCall × List String
  | [], w, cnt, tr, ws => (.ok cnt, w, tr, ws)
  | label :: rest, w, cnt, tr, ws =>
    match get_project_by_title w org label with
    | .err => (.err, w, tr, ws)
    | .ok none =>
      syncGo issue_id org action rest w cnt tr
        (ws ++ ["No project found for build " ++ label ++ " - skipping"])
    | .ok (some proj) =>
      if action == "add" then
        match ensure_issue_in_project w proj.id issue_id with
        | (.err, w1, tr1) => (.err, w1, tr ++ tr1, ws)
        | (.ok item_id, w1, tr1) =>
          if item_id == "" then
            syncGo issue_id org action rest w1 cnt (tr ++ tr1)
              (ws ++ ["Failed to add issue to project " ++ toString proj.number])
          else
            match set_iteration_to_current w1 proj.id item_id with
            | (true, tr2, ws2) =>
              syncGo issue_id org action rest w1 (cnt + 1) (tr ++ tr1 ++ tr2) (ws ++ ws2)
            | (false, tr2, ws2) =>
              syncGo issue_id org action rest w1 cnt (tr ++ tr1 ++ tr2)
                (ws ++ ws2 ++ ["Failed to set iteration in project " ++ toString proj.number])
      else
        match is_issue_in_project w proj.id issue_id with
        | .err => (.err, w, tr, ws)
        | .ok none => syncGo issue_id org action rest w cnt tr ws
        | .ok (some item_id) =>
          match clear_iteration w proj.id item_id with
          | (true, tr2, ws2) =>
            syncGo issue_id org action rest w (cnt + 1) (tr ++ tr2) (ws ++ ws2)
          | (false, tr2, ws2) =>
            syncGo issue_id org action rest w cnt (tr ++ tr2)
              (ws ++ ws2 ++ ["Failed to clear sprint in project " ++ toString proj.number])

/-- `process_sprint_for_build_labels`: resolve the issue id, list the
build labels (the `B` filter), early-return 0 when there are none
(warning only on `add`), then run the per-label loop; when the loop ends
with a zero count the script prints its final no-projects warning. -/
def process_sprint_for_build_labels (w : World) (repository : String)
    (issue_number : Nat) (org : String) (action : String) :
    RCall Nat × World × List ApiCall × List String :=
  match get_issue_id w repository issue_number with
  | .err => (.err, w, [], [])
  | .ok issue_id =>
    match get_labels_by_pref w repository issue_number "B" with
    | .err => (.err, w, [], [])
    | .ok [] =>
      if action == "add" then (.ok 0, w, [], ["No build label found on issue"])
      else (.ok 0, w, [], [])
    | .ok build_labels =>
      match syncGo issue_id org action build_labels w 0 [] [] with
      | (.err, w1, tr, ws) => (.err, w1, tr, ws)
      | (.ok cnt, w1, tr, ws) =>
        if cnt == 0 then (.ok cnt, w1, tr, ws ++ ["No projects were updated"])
        else (.ok cnt, w1, tr, ws)

/-- `add_issue_to_build_project`: resolve issue id, find the project by
the label title, ensure membership; boolean result. -/
def add_issue_to_build_project (w : World) (repository : String)
    (issue_number : Nat) (org : String) (label : String) :
    RCall Bool × World × List ApiCall × List String :=
  match get_issue_id w repository issue_number with
  | .err => (.err, w, [], [])
  | .ok issue_id =>
    match get_project_by_title w org label with
    | .err => (.err, w, [], [])
    | .ok none =>
      (.ok false, w, [], ["No project found with title " ++ label ++ " - skipping"])
    | .ok (some proj) =>
      match ensure_issue_in_project w proj.id issue_id with
      | (.err, w1, tr) => (.err, w1, tr, [])
      | (.ok item_id, w1, tr) =>
        if item_id == "" then
          (.ok false, w1, tr, ["Failed to add to project " ++ toString proj.number])
        else (.ok true, w1, tr, [])

/-- Parsed command-line arguments (only the three actions accepted by the
argparse `choices` occur; `label` is `none` when the flag is absent). -/
structure Args where
  action : String
  repository : String
  issue_number : Nat
  org : String
  label : Option String
deriving DecidableEq

/-- `main`: exit code of the process.  For `add-to-build-project` a
missing or empty label is a usage error (1) and the boolean result maps
to 0/1.  For the sprint actions an `RCall.err` is `sys.exit(1)`; a zero
count triggers a second label query on the resulting world, and the
process exits 1 only when build labels are present; otherwise it falls
off `main` and exits 0. -/
def main_run (w : World) (a : Args) : Nat :=
  if a.action == "add-to-build-project" then
    match a.label with
    | none => 1
    | some lbl =>
      if lbl == "" then 1
      else
        match add_issue_to_build_project w a.repository a.issue_number a.org lbl with
        | (.err, _, _, _) => 1
        | (.ok b, _, _, _) => if b then 0 else 1
  else
    let act := if a.action == "add-to-sprint" then "add" else "remove"
    match process_sprint_for_build_labels w a.repository a.issue_number a.org act with
    | (.err, _, _, _) => 1
    | (.ok n, w1, _, _) =>
      if n == 0 then
        match get_labels_by_pref w1 a.repository a.issue_number "B" with
        | .err => 1
        | .ok labels => if labels.isEmpty then 0 else 1
      else 0

/-! ### Concrete scenario worlds used by witnesses and counterexamples -/

/-- The single iteration of the B16 project iteration field. -/
def iterB16 : IterEntry := ⟨some "IT1", "Sprint 1", "2025-01-01"⟩

/-- The iteration field of the B16 project. -/
def fieldB16 : IterField := ⟨some "F1", "Iteration", [iterB16], []⟩

/-- World with one issue labelled B16 and B17 and a single project titled
B16 that has a well-formed iteration field; no call fails. -/
def w16 : World :=
  ⟨[⟨"org/repo", 1, "ISSUE1", ["B16", "B17"]⟩],
   [⟨"org", "P16", 16, "B16"⟩],
   [], [("P16", [fieldB16])], [], 0⟩

/-- World whose issue carries no label starting with B. -/
def wNoB : World :=
  ⟨[⟨"org/repo", 1, "ISSUE1", ["icebox", "bug"]⟩], [], [], [], [], 0⟩

/-- World whose project P20 has a Sprint field with an empty iteration
list. -/
def wEmptyIter : World :=
  ⟨[], [⟨"org", "P20", 20, "B20"⟩], [], [("P20", [⟨some "F2", "Sprint", [], []⟩])], [], 0⟩

/-- World whose project P21 has a Sprint field and whose clear mutation is
designated to fail. -/
def wClearFail : World :=
  ⟨[], [⟨"org", "P21", 21, "B21"⟩], [],
   [("P21", [⟨some "F3", "Sprint", [⟨some "IT3", "S", "2025-01-01"⟩], []⟩])],
   [ApiCall.clearIter "P21" "ITEM" "F3"], 0⟩

/-- World whose project P30 has an Iteration field whose dictionary is
missing the id key. -/
def wNoId : World :=
  ⟨[], [⟨"org", "P30", 30, "B30"⟩], [],
   [("P30", [⟨none, "Iteration", [⟨some "IT4", "S", "2025-01-01"⟩], []⟩])], [], 0⟩

/-! ### Claims -/

/-- C3: whenever the iteration field of a project is present with a
non-empty iterations list (and well-formed id keys), the set operation
selects the first entry of the list and issues the update mutation with
exactly that entry id — a positional choice, not a date computation. -/
theorem c3_set_uses_first_iteration
    (w : World) (pid item fid iid : String) (fd : IterField)
    (entry : IterEntry) (rest : List IterEntry)
    (hget : get_iteration_field w pid = .ok (some fd))
    (hfid : fd.id = some fid)
    (hit : fd.iterations = entry :: rest)
    (heid : entry.id = some iid)
    (hok : ApiCall.setIter pid item fid iid ∉ w.failing) :
    set_iteration_to_current w pid item =
      (true, [ApiCall.setIter pid item fid iid], []) := by
  simp [set_iteration_to_current, hget, hfid, hit, heid, hok]

/-- Witness for C3 on the concrete B16 world. -/
theorem c3_set_uses_first_iteration_wit :
    set_iteration_to_current w16 "P16" "ITEM" =
      (true, [ApiCall.setIter "P16" "ITEM" "F1" "IT1"], []) :=
  c3_set_uses_first_iteration w16 "P16" "ITEM" "F1" "IT1" fieldB16 iterB16 []
    (by decide) (by decide) (by decide) (by decide) (by decide)

/-- C4: when the iteration field is absent, or present with an empty
iterations list, the set operation returns failure with a diagnostic and
attempts no mutation call. -/
theorem c4_set_absent_or_empty_fails
    (w : World) (pid item : String)
    (h : get_iteration_field w pid = .ok none ∨
      ∃ fd, get_iteration_field w pid = .ok (some fd) ∧ fd.iterations = []) :
    (set_iteration_to_current w pid item).1 = false ∧
    (set_iteration_to_current w pid item).2.1 = [] ∧
    (set_iteration_to_current w pid item).2.2 ≠ [] := by
  rcases h with h | ⟨fd, hget, hit⟩
  · simp [set_iteration_to_current, h]
  · rcases hfid : fd.id with _ | fid
    · simp [set_iteration_to_current, hget, hfid]
    · simp [set_iteration_to_current, hget, hfid, hit]

/-- Witness for C4: empty iterations list on P20, absent field on P99. -/
theorem c4_set_absent_or_empty_fails_wit :
    ((set_iteration_to_current wEmptyIter "P20" "ITEM").1 = false ∧
      (set_iteration_to_current wEmptyIter "P20" "ITEM").2.1 = [] ∧
      (set_iteration_to_current wEmptyIter "P20" "ITEM").2.2 ≠ []) ∧
    ((set_iteration_to_current wEmptyIter "P99" "ITEM").1 = false ∧
      (set_iteration_to_current wEmptyIter "P99" "ITEM").2.1 = [] ∧
      (set_iteration_to_current wEmptyIter "P99" "ITEM").2.2 ≠ []) :=
  ⟨c4_set_absent_or_empty_fails wEmptyIter "P20" "ITEM"
      (Or.inr ⟨⟨some "F2", "Sprint", [], []⟩, by decide, by decide⟩),
    c4_set_absent_or_empty_fails wEmptyIter "P99" "ITEM" (Or.inl (by decide))⟩

/-- C6: with a resolvable issue that has no build label, the remove
action returns 0, leaves the world unchanged, attempts no mutation call
and emits no warning. -/
theorem c6_remove_no_build_labels
    (w : World) (repo : String) (n : Nat) (org iid : String)
    (hid : get_issue_id w repo n = .ok iid)
    (hlab : get_labels_by_pref w repo n "B" = .ok []) :
    process_sprint_for_build_labels w repo n org "remove" = (.ok 0, w, [], []) := by
  simp [process_sprint_for_build_labels, hid, hlab]

/-- Witness for C6 on the world whose issue has no B label. -/
theorem c6_remove_no_build_labels_wit :
    process_sprint_for_build_labels wNoB "org/repo" 1 "org" "remove" =
      (.ok 0, wNoB, [], []) :=
  c6_remove_no_build_labels wNoB "org/repo" 1 "org" "ISSUE1" (by decide) (by decide)

/-- C8: the clear operation is a boolean: a missing field yields failure
with the diagnostic rather than an exception, and a remote error raised
by the clear mutation itself is caught and converted to failure with a
diagnostic rather than propagating. -/
theorem c8_clear_degrades (w : World) (pid item : String) :
    (get_iteration_field w pid = .ok none →
      clear_iteration w pid item = (false, [], ["No Sprint/Iteration field found"])) ∧
    (∀ fd fid, get_iteration_field w pid = .ok (some fd) → fd.id = some fid →
      ApiCall.clearIter pid item fid ∈ w.failing →
      clear_iteration w pid item =
        (false, [ApiCall.clearIter pid item fid],
          ["Failed to clear iteration: api error"])) := by
  constructor
  · intro h
    simp [clear_iteration, h]
  · intro fd fid hget hfid hin
    simp [clear_iteration, hget, hfid, hin]

/-- Witness for C8: absent field on P99 of the empty-iteration world, and
a failing clear mutation on P21. -/
theorem c8_clear_degrades_wit :
    clear_iteration wEmptyIter "P99" "ITEM" =
      (false, [], ["No Sprint/Iteration field found"]) ∧
    clear_iteration wClearFail "P21" "ITEM" =
      (false, [ApiCall.clearIter "P21" "ITEM" "F3"],
        ["Failed to clear iteration: api error"]) :=
  ⟨(c8_clear_degrades wEmptyIter "P99" "ITEM").1 (by decide),
    (c8_clear_degrades wClearFail "P21" "ITEM").2
      ⟨some "F3", "Sprint", [⟨some "IT3", "S", "2025-01-01"⟩], []⟩ "F3"
      (by decide) (by decide) (by decide)⟩

/-- C10: both field mutations catch the key error of a malformed field
dictionary: when the id key is missing they return failure with a
diagnostic and attempt no mutation, rather than raising. -/
theorem c10_keyerror_degrades
    (w : World) (pid item : String) (fd : IterField)
    (hget : get_iteration_field w pid = .ok (some fd))
    (hfid : fd.id = none) :
    set_iteration_to_current w pid item =
      (false, [], ["Failed to set iteration: key error id"]) ∧
    clear_iteration w pid item =
      (false, [], ["Failed to clear iteration: key error id"]) := by
  constructor
  · simp [set_iteration_to_current, hget, hfid]
  · simp [clear_iteration, hget, hfid]

/-- Witness for C10 on the world whose P30 field dictionary lacks the id
key. -/
theorem c10_keyerror_degrades_wit :
    set_iteration_to_current wNoId "P30" "ITEM" =
      (false, [], ["Failed to set iteration: key error id"]) ∧
    clear_iteration wNoId "P30" "ITEM" =
      (false, [], ["Failed to clear iteration: key error id"]) :=
  c10_keyerror_degrades wNoId "P30" "ITEM"
    ⟨none, "Iteration", [⟨some "IT4", "S", "2025-01-01"⟩], []⟩
    (by decide) (by decide)
/-- C5: with the project listing succeeding, the lookup returns none
exactly when no project among the first 100 projects of the organization
has a title equal to the query (case-sensitive, no partial match); a
matching project beyond the first 100 is invisible to the lookup. -/
theorem c5_project_lookup_none_iff
    (w : World) (org title : String)
    (hok : ApiCall.listProjects org ∉ w.failing) :
    get_project_by_title w org title = .ok none ↔
      ∀ p ∈ (projectsOf w org).take 100, p.title ≠ title := by
  unfold get_project_by_title
  rw [if_neg hok]
  rcases hf : ((projectsOf w org).take 100).filter (fun p => p.title == title)
      with _ | ⟨p, _ | ⟨q, t⟩⟩
  · rw [hf]
    simp only [List.filter_eq_nil_iff, beq_iff_eq] at hf
    simpa using hf
  · have hp : p ∈ ((projectsOf w org).take 100).filter (fun p => p.title == title) := by
      rw [hf]; exact List.mem_cons_self p []
    have hmem := List.mem_filter.mp hp
    simp only [beq_iff_eq] at hmem
    rw [hf]
    constructor
    · intro h
      simp at h
    · intro h
      exact absurd hmem.2 (h p hmem.1)
  · have hp : p ∈ ((projectsOf w org).take 100).filter (fun p => p.title == title) := by
      rw [hf]; exact List.mem_cons_self p (q :: t)
    have hmem := List.mem_filter.mp hp
    simp only [beq_iff_eq] at hmem
    rw [hf]
    constructor
    · intro h
      simp at h
    · intro h
      exact absurd hmem.2 (h p hmem.1)

/-- Witness for C5: in the B16 world, no project of the organization is
titled B17. -/
theorem c5_project_lookup_none_iff_wit :
    get_project_by_title w16 "org" "B17" = .ok none ↔
      ∀ p ∈ (projectsOf w16 "org").take 100, p.title ≠ "B17" :=
  c5_project_lookup_none_iff w16 "org" "B17" (by decide)

/-- C1: with action add the per-label loop treats every build label
independently: a label whose title matches no project is skipped with a
warning and the batch continues (first conjunct); a label whose project
is found runs ensure-membership and then the terminal set step, and the
success count is incremented exactly when that terminal step succeeds
(second conjunct); on the concrete world with build labels B16 and B17
where only B16 matches a project, exactly one project is updated — one
add and one set mutation — and the result is 1 (third conjunct). -/
theorem c1_add_per_label_independent :
    (∀ (w : World) (issue_id org label : String) (rest : List String)
        (cnt : Nat) (tr : List ApiCall) (ws : List String),
        get_project_by_title w org label = .ok none →
        syncGo issue_id org "add" (label :: rest) w cnt tr ws =
          syncGo issue_id org "add" rest w cnt tr
            (ws ++ ["No project found for build " ++ label ++ " - skipping"])) ∧
    (∀ (w w1 : World) (issue_id org label item_id : String) (rest : List String)
        (cnt : Nat) (tr tr1 tr2 : List ApiCall) (ws ws2 : List String)
        (proj : Project) (b : Bool),
        get_project_by_title w org label = .ok (some proj) →
        ensure_issue_in_project w proj.id issue_id = (.ok item_id, w1, tr1) →
        item_id ≠ "" →
        set_iteration_to_current w1 proj.id item_id = (b, tr2, ws2) →
        syncGo issue_id org "add" (label :: rest) w cnt tr ws =
          syncGo issue_id org "add" rest w1 (if b then cnt + 1 else cnt)
            (tr ++ tr1 ++ tr2)
            (ws ++ ws2 ++ if b then []
              else ["Failed to set iteration in project " ++ toString proj.number])) ∧
    process_sprint_for_build_labels w16 "org/repo" 1 "org" "add" =
      (.ok 1, { w16 with items := [⟨"P16", "PVTI_0", "ISSUE1"⟩], ctr := 1 },
        [ApiCall.addItem "P16" "ISSUE1", ApiCall.setIter "P16" "PVTI_0" "F1" "IT1"],
        ["No project found for build B17 - skipping"]) := by
  refine ⟨?_, ?_, by decide⟩
  · intro w issue_id org label rest cnt tr ws h
    simp [syncGo, h]
  · intro w w1 issue_id org label item_id rest cnt tr tr1 tr2 ws ws2 proj b
      hproj hens hitem hset
    have hne : (item_id == "") = false := beq_eq_false_iff_ne.mpr hitem
    cases b <;> simp [syncGo, hproj, hens, hne, hset]

/-- Witness for C1: the unmatched label B17 is skipped with its warning
in the concrete B16 world. -/
theorem c1_add_per_label_independent_wit :
    syncGo "ISSUE1" "org" "add" ["B17"] w16 0 [] [] =
      syncGo "ISSUE1" "org" "add" [] w16 0 []
        ["No project found for build B17 - skipping"] := by
  simpa using
    c1_add_per_label_independent.1 w16 "ISSUE1" "org" "B17" [] 0 [] [] (by decide)

/-- C7 counterexample: the issue of this world has no build label, yet
running the add-to-sprint action yields exit code 0 — the zero return of
the sprint processing is not escalated to a failure exit when no build
labels are present, because the final re-check of the labels finds the
list empty and skips the failure exit. -/
theorem c7_counterexample :
    get_labels_by_pref wNoB "org/repo" 1 "B" = .ok [] ∧
    main_run wNoB ⟨"add-to-sprint", "org/repo", 1, "org", none⟩ = 0 := by
  decide

/-- C7 amended: exit code 1 exactly when the requested action reports
failure with build labels present: a false result of the build-project
action exits 1 and a true result exits 0 (first two conjuncts); for
add-to-sprint a positive count exits 0 (third), a zero count with build
labels still present exits 1 (fourth), and a zero count with no build
labels exits 0 — the no-label warning is not escalated (fifth). -/
theorem c7_exit_codes :
    (∀ (w w1 : World) (a : Args) (lbl : String) (tr : List ApiCall) (ws : List String),
        a.action = "add-to-build-project" → a.label = some lbl → lbl ≠ "" →
        add_issue_to_build_project w a.repository a.issue_number a.org lbl =
          (.ok false, w1, tr, ws) →
        main_run w a = 1) ∧
    (∀ (w w1 : World) (a : Args) (lbl : String) (tr : List ApiCall) (ws : List String),
        a.action = "add-to-build-project" → a.label = some lbl → lbl ≠ "" →
        add_issue_to_build_project w a.repository a.issue_number a.org lbl =
          (.ok true, w1, tr, ws) →
        main_run w a = 0) ∧
    (∀ (w w1 : World) (a : Args) (n : Nat) (tr : List ApiCall) (ws : List String),
        a.action = "add-to-sprint" →
        process_sprint_for_build_labels w a.repository a.issue_number a.org "add" =
          (.ok n, w1, tr, ws) →
        n ≠ 0 →
        main_run w a = 0) ∧
    (∀ (w w1 : World) (a : Args) (tr : List ApiCall) (ws : List String)
        (l : String) (ls : List String),
        a.action = "add-to-sprint" →
        process_sprint_for_build_labels w a.repository a.issue_number a.org "add" =
          (.ok 0, w1, tr, ws) →
        get_labels_by_pref w1 a.repository a.issue_number "B" = .ok (l :: ls) →
        main_run w a = 1) ∧
    (∀ (w w1 : World) (a : Args) (tr : List ApiCall) (ws : List String),
        a.action = "add-to-sprint" →
        process_sprint_for_build_labels w a.repository a.issue_number a.org "add" =
          (.ok 0, w1, tr, ws) →
        get_labels_by_pref w1 a.repository a.issue_number "B" = .ok [] →
        main_run w a = 0) := by
  refine ⟨?_, ?_, ?_, ?_, ?_⟩
  · intro w w1 a lbl tr ws ha hlbl hne hrun
    have hb : (lbl == "") = false := beq_eq_false_iff_ne.mpr hne
    simp [main_run, ha, hlbl, hb, hrun]
  · intro w w1 a lbl tr ws ha hlbl hne hrun
    have hb : (lbl == "") = false := beq_eq_false_iff_ne.mpr hne
    simp [main_run, ha, hlbl, hb, hrun]
  · intro w w1 a n tr ws ha hrun hn
    have hb : (n == 0) = false := beq_eq_false_iff_ne.mpr hn
    simp [main_run, ha, hrun, hb]
  · intro w w1 a tr ws l ls ha hrun hlab
    simp [main_run, ha, hrun, hlab]
  · intro w w1 a tr ws ha hrun hlab
    simp [main_run, ha, hrun, hlab]

/-- Witness for C7 amended: the fourth conjunct on a world whose issue
carries a build label matching no project (exit 1), applied at the
concrete run. -/
theorem c7_exit_codes_wit :
    main_run ⟨[⟨"org/repo", 1, "ISSUE1", ["B99"]⟩], [], [], [], [], 0⟩
      ⟨"add-to-sprint", "org/repo", 1, "org", none⟩ = 1 :=
  c7_exit_codes.2.2.2.1
    ⟨[⟨"org/repo", 1, "ISSUE1", ["B99"]⟩], [], [], [], [], 0⟩
    ⟨[⟨"org/repo", 1, "ISSUE1", ["B99"]⟩], [], [], [], [], 0⟩
    ⟨"add-to-sprint", "org/repo", 1, "org", none⟩ []
    ["No project found for build B99 - skipping", "No projects were updated"]
    "B99" [] rfl (by decide) (by decide)

/-! ### Helper lemmas about the membership scan after an add -/

/-- The fresh item id minted by the add mutation is never the empty
string. -/
theorem newId_ne_empty (n : Nat) : ("PVTI_" ++ toString n) ≠ "" := by
  intro h
  have hd := congrArg String.data h
  simp [String.data_append] at hd

/-- A newline join of two or more rows is never empty. -/
theorem joinNL_cons_cons_ne (a b : String) (t : List String) :
    joinNL (a :: b :: t) ≠ "" := by
  intro h
  have hd := congrArg String.data h
  simp [joinNL, String.data_append] at hd

/-- A newline join of rows that are each non-empty is empty only for the
empty row list. -/
theorem joinNL_eq_empty (ids : List String) (h : ∀ x ∈ ids, x ≠ "")
    (he : joinNL ids = "") : ids = [] := by
  match ids with
  | [] => rfl
  | [a] => exact absurd he (h a (by simp))
  | a :: b :: t => exact absurd he (joinNL_cons_cons_ne a b t)

/-- After a successful add in a project whose first-100 scan holds all
its items and currently matches nothing for the issue, the membership
scan finds exactly the freshly added item. -/
theorem find_after_add (w : World) (pid iid : String)
    (hadd : ApiCall.addItem pid iid ∉ w.failing)
    (hlist : ApiCall.listItems pid ∉ w.failing)
    (hlen : (itemsOf w pid).length < 100)
    (hflt : (itemsOf w pid).filter (fun it => it.contentId == iid) = []) :
    add_issue_to_project w pid iid =
      (.ok ("PVTI_" ++ toString w.ctr),
        { w with
          items := w.items ++ [⟨pid, "PVTI_" ++ toString w.ctr, iid⟩],
          ctr := w.ctr + 1 },
        [ApiCall.addItem pid iid]) ∧
    is_issue_in_project
        { w with
          items := w.items ++ [⟨pid, "PVTI_" ++ toString w.ctr, iid⟩],
          ctr := w.ctr + 1 }
        pid iid = .ok (some ("PVTI_" ++ toString w.ctr)) := by
  constructor
  · simp [add_issue_to_project, hadd]
  · have h1 : itemsOf
        { w with
          items := w.items ++ [⟨pid, "PVTI_" ++ toString w.ctr, iid⟩],
          ctr := w.ctr + 1 } pid
        = itemsOf w pid ++ [⟨pid, "PVTI_" ++ toString w.ctr, iid⟩] := by
      simp [itemsOf, List.filter_append]
    have h2 : (itemsOf w pid ++ [(⟨pid, "PVTI_" ++ toString w.ctr, iid⟩ : Item)]).take 100
        = itemsOf w pid ++ [⟨pid, "PVTI_" ++ toString w.ctr, iid⟩] := by
      apply List.take_of_length_le
      rw [List.length_append]
      simp only [List.length_singleton]
      omega
    have h3 : ((itemsOf w pid ++ [(⟨pid, "PVTI_" ++ toString w.ctr, iid⟩ : Item)]).filter
          (fun it => it.contentId == iid))
        = [⟨pid, "PVTI_" ++ toString w.ctr, iid⟩] := by
      rw [List.filter_append, hflt]
      simp
    have hne : (("PVTI_" ++ toString w.ctr) == "") = false :=
      beq_eq_false_iff_ne.mpr (newId_ne_empty w.ctr)
    unfold is_issue_in_project
    rw [if_neg hlist]
    rw [h1, h2, h3]
    simp [joinNL, hne]

/-- C2: the ensure operation returns the existing item id whenever the
membership scan finds one and delegates to the add mutation otherwise
(first two conjuncts); consequently, in a well-formed world (non-empty
item ids, project within the 100-item scan window) two successive calls
return the same item id, the second call performs no mutation, and at
most one membership is created (third conjunct). -/
theorem c2_ensure_idempotent :
    (∀ (w : World) (pid iid s : String),
        is_issue_in_project w pid iid = .ok (some s) →
        ensure_issue_in_project w pid iid = (.ok s, w, [])) ∧
    (∀ (w : World) (pid iid : String),
        is_issue_in_project w pid iid = .ok none →
        ensure_issue_in_project w pid iid = add_issue_to_project w pid iid) ∧
    (∀ (w : World) (pid iid : String),
        ApiCall.listItems pid ∉ w.failing →
        ApiCall.addItem pid iid ∉ w.failing →
        (∀ it ∈ w.items, it.itemId ≠ "") →
        (itemsOf w pid).length < 100 →
        ∃ (s : String) (w1 : World) (tr : List ApiCall),
          ensure_issue_in_project w pid iid = (.ok s, w1, tr) ∧
          ensure_issue_in_project w1 pid iid = (.ok s, w1, []) ∧
          w1.items.length ≤ w.items.length + 1) := by
  refine ⟨?_, ?_, ?_⟩
  · intro w pid iid s h
    simp [ensure_issue_in_project, h]
  · intro w pid iid h
    simp [ensure_issue_in_project, h]
  · intro w pid iid hlist hadd hids hlen
    rcases hq : is_issue_in_project w pid iid with v | _
    · rcases v with _ | s
      · -- nothing found: the ensure call adds, and the second call finds
        -- the freshly added item
        have hq2 := hq
        unfold is_issue_in_project at hq2
        rw [if_neg hlist] at hq2
        simp only [] at hq2
        have hjoin : joinNL ((((itemsOf w pid).take 100).filter
            (fun it => it.contentId == iid)).map (fun it => it.itemId)) = "" := by
          by_cases hc : (joinNL ((((itemsOf w pid).take 100).filter
              (fun it => it.contentId == iid)).map (fun it => it.itemId)) == "") = true
          · exact eq_of_beq hc
          · rw [Bool.not_eq_true] at hc
            rw [if_neg (by simp [hc])] at hq2
            exact absurd hq2 (by simp)
        have helem : ∀ x ∈ (((itemsOf w pid).take 100).filter
            (fun it => it.contentId == iid)).map (fun it => it.itemId), x ≠ "" := by
          intro x hx
          obtain ⟨it, hit, hxe⟩ := List.mem_map.mp hx
          have hmem1 := List.mem_of_mem_filter hit
          have hmem2 := List.mem_of_mem_take hmem1
          have hmem3 : it ∈ w.items := List.mem_of_mem_filter hmem2
          exact hxe ▸ hids it hmem3
        have hmapnil := joinNL_eq_empty _ helem hjoin
        have htake : (itemsOf w pid).take 100 = itemsOf w pid :=
          List.take_of_length_le (le_of_lt hlen)
        have hflt : (itemsOf w pid).filter (fun it => it.contentId == iid) = [] := by
          rw [← htake]
          exact List.map_eq_nil_iff.mp hmapnil
        obtain ⟨haddeq, hfind⟩ := find_after_add w pid iid hadd hlist hlen hflt
        refine ⟨"PVTI_" ++ toString w.ctr,
          { w with
            items := w.items ++ [⟨pid, "PVTI_" ++ toString w.ctr, iid⟩],
            ctr := w.ctr + 1 },
          [ApiCall.addItem pid iid], ?_, ?_, ?_⟩
        · rw [ensure_issue_in_project, hq, haddeq]
        · rw [ensure_issue_in_project, hfind]
        · simp
      · exact ⟨s, w, [], by simp [ensure_issue_in_project, hq],
          by simp [ensure_issue_in_project, hq], Nat.le_succ _⟩
    · exfalso
      unfold is_issue_in_project at hq
      rw [if_neg hlist] at hq
      exact absurd hq (by simp)

/-- Witness for C2 on an empty world: the first ensure call creates the
membership, the second returns the same fresh id without mutating. -/
theorem c2_ensure_idempotent_wit :
    ∃ (s : String) (w1 : World) (tr : List ApiCall),
      ensure_issue_in_project wNoB "P1" "ISSUE1" = (.ok s, w1, tr) ∧
      ensure_issue_in_project w1 "P1" "ISSUE1" = (.ok s, w1, []) ∧
      w1.items.length ≤ wNoB.items.length + 1 :=
  c2_ensure_idempotent.2.2 wNoB "P1" "ISSUE1" (by decide) (by decide)
    (by intro it h; simp [wNoB] at h) (by decide)

/-- C9: adding a membership and immediately scanning for it returns
exactly the item id the add produced, provided the project items fit in
the 100-item scan window and the pair had no membership yet. -/
theorem c9_add_then_find_roundtrip (w : World) (pid iid : String)
    (hadd : ApiCall.addItem pid iid ∉ w.failing)
    (hlist : ApiCall.listItems pid ∉ w.failing)
    (hlen : (itemsOf w pid).length < 100)
    (hflt : (itemsOf w pid).filter (fun it => it.contentId == iid) = []) :
    ∃ (nid : String) (w1 : World) (tr : List ApiCall),
      add_issue_to_project w pid iid = (.ok nid, w1, tr) ∧
      is_issue_in_project w1 pid iid = .ok (some nid) := by
  obtain ⟨h1, h2⟩ := find_after_add w pid iid hadd hlist hlen hflt
  exact ⟨_, _, _, h1, h2⟩

/-- Witness for C9 on the B16 world: the add for project P16 is found by
the immediate scan. -/
theorem c9_add_then_find_roundtrip_wit :
    ∃ (nid : String) (w1 : World) (tr : List ApiCall),
      add_issue_to_project w16 "P16" "ISSUE1" = (.ok nid, w1, tr) ∧
      is_issue_in_project w1 "P16" "ISSUE1" = .ok (some nid) :=
  c9_add_then_find_roundtrip w16 "P16" "ISSUE1" (by decide) (by decide)
    (by decide) (by decide)
